import Mathlib

/-!
Shallow embedding of `app/clashroyale.py` (WarManageClashRoyale): a Streamlit
dashboard that fetches a clan roster and the current river-race snapshot from
the Clash Royale API, merges them with a locally persisted phone directory,
and reports members with pending daily attacks.

Machine strings are `String`, parsed JSON payloads are explicit structures,
Python `None` is `Option.none`, and pandas missing cells (NaN) are `Option`
values on the participant records.
-/

namespace ClashRoyale

/-! ## Filename sanitization (`sanitize_filename`, lines 16-20) -/

/-- Character class `[a-zA-Z0-9_]`: the complement of the class replaced by
`re.sub(r'[^a-zA-Z0-9_]', '_', ...)`. -/
def isFilenameChar (c : Char) : Bool :=
  decide (('a' ≤ c ∧ c ≤ 'z') ∨ ('A' ≤ c ∧ c ≤ 'Z') ∨ ('0' ≤ c ∧ c ≤ '9') ∨ c = '_')

/-- Embedding of `re.sub(r'^#', '', tag)`: the pattern is anchored, so exactly
one leading hash character is removed when present. -/
def stripLeadingHash (l : List Char) : List Char :=
  match l with
  | [] => []
  | c :: rest => if c = '#' then rest else c :: rest

/-- Replacement performed character by character by
`re.sub(r'[^a-zA-Z0-9_]', '_', ...)`. -/
def sanitizeChar (c : Char) : Char :=
  if isFilenameChar c then c else '_'

/-- List-level body of `sanitize_filename`. -/
def sanitizeList (l : List Char) : List Char :=
  (stripLeadingHash l).map sanitizeChar

/-- Embedding of `sanitize_filename` (lines 16-20): strip one leading `#`, then
replace every character outside `[a-zA-Z0-9_]` with `_`. -/
def sanitize_filename (tag : String) : String :=
  String.mk (sanitizeList tag.data)

lemma sanitizeChar_valid (c : Char) : isFilenameChar (sanitizeChar c) = true := by
  unfold sanitizeChar
  cases h : isFilenameChar c with
  | true => simpa using h
  | false =>
    show isFilenameChar '_' = true
    decide

lemma sanitizeList_valid (l : List Char) :
    ∀ c ∈ sanitizeList l, isFilenameChar c = true := by
  intro c hc
  simp only [sanitizeList, List.mem_map] at hc
  obtain ⟨d, _, rfl⟩ := hc
  exact sanitizeChar_valid d

lemma stripLeadingHash_of_valid (l : List Char)
    (h : ∀ c ∈ l, isFilenameChar c = true) : stripLeadingHash l = l := by
  cases l with
  | nil => rfl
  | cons c rest =>
    have hc := h c (by simp)
    have hne : ¬ c = '#' := by
      intro e
      subst e
      exact absurd hc (by decide)
    simp [stripLeadingHash, hne]

lemma map_sanitizeChar_of_valid (l : List Char)
    (h : ∀ c ∈ l, isFilenameChar c = true) : l.map sanitizeChar = l := by
  induction l with
  | nil => rfl
  | cons c rest ih =>
    have hc := h c (by simp)
    simp [sanitizeChar, hc, ih (fun d hd => h d (by simp [hd]))]

lemma sanitizeList_idem (l : List Char) :
    sanitizeList (sanitizeList l) = sanitizeList l := by
  have hvalid := sanitizeList_valid l
  show (stripLeadingHash (sanitizeList l)).map sanitizeChar = sanitizeList l
  rw [stripLeadingHash_of_valid _ hvalid, map_sanitizeChar_of_valid _ hvalid]

/-- C7: the output of `sanitize_filename` contains only characters in
`[A-Za-z0-9_]`, and the function is idempotent. -/
theorem c7_sanitize_valid_and_idempotent (tag : String) :
    (∀ c ∈ (sanitize_filename tag).data, isFilenameChar c = true) ∧
    sanitize_filename (sanitize_filename tag) = sanitize_filename tag := by
  constructor
  · intro c hc
    exact sanitizeList_valid tag.data c hc
  · exact congrArg String.mk (sanitizeList_idem tag.data)

/-- Witness for C7 at the concrete clan identifier `"#Ab c!"`. -/
theorem c7_sanitize_witness :
    isFilenameChar 'A' = true ∧
    sanitize_filename (sanitize_filename "#Ab c!") = sanitize_filename "#Ab c!" :=
  ⟨(c7_sanitize_valid_and_idempotent "#Ab c!").1 'A' (by decide),
   (c7_sanitize_valid_and_idempotent "#Ab c!").2⟩

/-! ## Export filename (`download_filename`, lines 370-371) -/

/-- Wall-clock instant used by `datetime.now()`. -/
structure DateTime where
  year : Nat
  month : Nat
  day : Nat
  hour : Nat
  minute : Nat

/-- Zero-padding of `%m`, `%d`, `%H`, `%M` to two digits. -/
def pad2 (n : Nat) : String :=
  if n < 10 then "0" ++ toString n else toString n

/-- Zero-padding of `%Y` to four digits. -/
def pad4 (n : Nat) : String :=
  if n < 10 then "000" ++ toString n
  else if n < 100 then "00" ++ toString n
  else if n < 1000 then "0" ++ toString n
  else toString n

/-- Embedding of `datetime.now().strftime("%Y%m%d_%H%M")` (line 370). -/
def strftimeYmdHm (now : DateTime) : String :=
  pad4 now.year ++ pad2 now.month ++ pad2 now.day ++ "_" ++
    pad2 now.hour ++ pad2 now.minute

/-- Embedding of the export filename construction (line 371):
`f"pendentes_{sanitize_filename(current_tag)}_{now}.csv"`. -/
def download_filename (currentTag : String) (now : DateTime) : String :=
  "pendentes_" ++ sanitize_filename currentTag ++ "_" ++ strftimeYmdHm now ++ ".csv"

/-- C5 counterexample: exporting for clan `#QPYL8YCV` at 2024-05-01 09:03 does
not produce the filename `pending_QPYL8YCV_20240501_0903.csv` claimed by the
spec; the code's prefix is the Portuguese `pendentes_`. -/
theorem c5_filename_counterexample :
    download_filename "#QPYL8YCV" ⟨2024, 5, 1, 9, 3⟩ ≠
      "pending_QPYL8YCV_20240501_0903.csv" := by decide

/-- C5 amended: the export filename follows the pattern
`pendentes_<sanitized-clan-id>_<YYYYMMDD_HHMM>.csv`; for clan `#QPYL8YCV` at
2024-05-01 09:03 it is exactly `pendentes_QPYL8YCV_20240501_0903.csv`. -/
theorem c5_filename_amended :
    download_filename "#QPYL8YCV" ⟨2024, 5, 1, 9, 3⟩ =
      "pendentes_QPYL8YCV_20240501_0903.csv" := by decide

/-! ## Clan-tag input normalization (line 178) and contact-store location
(`get_clan_csv_filename`, lines 22-30) -/

/-- Whitespace characters removed by Python `str.strip()` (ASCII range). -/
def isPySpace (c : Char) : Bool :=
  c == ' ' || c == '\t' || c == '\n' || c == '\r' ||
    c == Char.ofNat 11 || c == Char.ofNat 12

/-- Embedding of `str.strip()`: drop whitespace from both ends. -/
def pyStrip (s : String) : String :=
  String.mk (((s.data.dropWhile isPySpace).reverse.dropWhile isPySpace).reverse)

/-- Embedding of `str.upper()` on one character (ASCII range). -/
def pyUpperChar (c : Char) : Char :=
  if 'a' ≤ c ∧ c ≤ 'z' then Char.ofNat (c.toNat - 32) else c

/-- Embedding of `str.upper()`. -/
def pyUpper (s : String) : String :=
  String.mk (s.data.map pyUpperChar)

/-- Normalization applied to the operator's clan-tag input (line 178):
`.strip().upper()`. -/
def normalizeClanTagInput (s : String) : String :=
  pyUpper (pyStrip s)

/-- Directory constant `PLAYER_DATA_DIR` (line 12). -/
def PLAYER_DATA_DIR : String := "dados_clas"

/-- Embedding of `get_clan_csv_filename` (lines 22-30) on the success path of
directory creation: `os.path.join(PLAYER_DATA_DIR, f"dados_jogadores_{sanitize_filename(clan_tag)}.csv")`. -/
def get_clan_csv_filename (clanTag : String) : String :=
  PLAYER_DATA_DIR ++ "/" ++ "dados_jogadores_" ++ sanitize_filename clanTag ++ ".csv"

/-- Two character lists agree up to letter case when they have equal length and
corresponding characters coincide after `pyUpperChar`. -/
def sameUpToCase : List Char → List Char → Bool
  | [], [] => true
  | c :: l, d :: m => (pyUpperChar c == pyUpperChar d) && sameUpToCase l m
  | _, _ => false

lemma sameUpToCase_map_eq (l m : List Char) (h : sameUpToCase l m = true) :
    l.map pyUpperChar = m.map pyUpperChar := by
  induction l generalizing m with
  | nil =>
    cases m with
    | nil => rfl
    | cons d m => simp [sameUpToCase] at h
  | cons c l ih =>
    cases m with
    | nil => simp [sameUpToCase] at h
    | cons d m =>
      simp only [sameUpToCase, Bool.and_eq_true, beq_iff_eq] at h
      simp [List.map, h.1, ih m h.2]

/-- C10: two clan-tag inputs that differ only in letter case and in
leading/trailing whitespace normalize to the same tag, and hence map to the
same contact-store location. -/
theorem c10_input_normalization (s t : String)
    (h : sameUpToCase (pyStrip s).data (pyStrip t).data = true) :
    normalizeClanTagInput s = normalizeClanTagInput t ∧
    get_clan_csv_filename (normalizeClanTagInput s) =
      get_clan_csv_filename (normalizeClanTagInput t) := by
  have he : normalizeClanTagInput s = normalizeClanTagInput t :=
    congrArg String.mk (sameUpToCase_map_eq _ _ h)
  exact ⟨he, by rw [he]⟩

/-- Witness for C10: the inputs `"  #qpyl8ycv "` and `"#QPYL8YCV"` differ only
in case and surrounding whitespace; they share one sanitized storage location. -/
theorem c10_input_normalization_witness :
    sameUpToCase (pyStrip "  #qpyl8ycv ").data (pyStrip "#QPYL8YCV").data = true ∧
    normalizeClanTagInput "  #qpyl8ycv " = normalizeClanTagInput "#QPYL8YCV" ∧
    get_clan_csv_filename (normalizeClanTagInput "  #qpyl8ycv ") =
      get_clan_csv_filename (normalizeClanTagInput "#QPYL8YCV") :=
  ⟨by decide,
   (c10_input_normalization "  #qpyl8ycv " "#QPYL8YCV" (by decide)).1,
   (c10_input_normalization "  #qpyl8ycv " "#QPYL8YCV" (by decide)).2⟩

/-! ## River-race participants and the pending-attack computation
(lines 311-338) -/

/-- Row of the river-race `participants` payload. A participant lacking the
`decksUsedToday` key in its JSON object carries `none`; pandas renders such a
cell as NaN when at least one other row has the key. -/
structure Participant where
  tag : String
  name : String
  decksUsedToday : Option Nat
deriving DecidableEq

/-- Pandas column presence: `'decksUsedToday' in participants_df.columns` holds
exactly when at least one participant object carried the key (line 314). -/
def decksColumnPresent (ps : List Participant) : Bool :=
  ps.any (fun p => p.decksUsedToday.isSome)

/-- Cell value of the `decksUsedToday` column after lines 313-315: when the
column is absent it is created filled with `0` for every row; when it is
present, a row lacking the key holds a missing value (NaN, `none`). -/
def effectiveDecksUsedToday (present : Bool) (p : Participant) : Option Nat :=
  if present then p.decksUsedToday else some 0

/-- Embedding of line 331:
`participants_df[participants_df['decksUsedToday'] == 0]`. A missing cell
(NaN) compares unequal to `0`, so such a row is dropped by the filter. -/
def missing_attack_today (ps : List Participant) : List Participant :=
  ps.filter (fun p => effectiveDecksUsedToday (decksColumnPresent ps) p == some 0)

/-- Embedding of line 334: `set(missing_attack_today['tag'])`. -/
def missing_tags_today (ps : List Participant) : Finset String :=
  ((missing_attack_today ps).map Participant.tag).toFinset

/-- Embedding of line 337:
`missing_tags_today.intersection(current_member_tags)`. -/
def verified_missing_tags (memberTags : Finset String) (ps : List Participant) :
    Finset String :=
  missing_tags_today ps ∩ memberTags

/-- Embedding of line 338: `missing_tags_today.difference(current_member_tags)`. -/
def unverified_tags (memberTags : Finset String) (ps : List Participant) :
    Finset String :=
  missing_tags_today ps \ memberTags

/-- C1: the pending-today computation partitions the zero-deck tag set exactly:
the verified (pending) part is the zero-deck tags inside the member set, the
unverified part is the zero-deck tags outside it, their union is the whole
zero-deck tag set, their intersection is empty, and every pending identifier
belongs to the member set and comes from a participant whose effective
decks-used-today value is zero. -/
theorem c1_pending_partition (memberTags : Finset String) (ps : List Participant) :
    verified_missing_tags memberTags ps ∪ unverified_tags memberTags ps =
      missing_tags_today ps ∧
    verified_missing_tags memberTags ps ∩ unverified_tags memberTags ps = ∅ ∧
    verified_missing_tags memberTags ps ⊆ memberTags ∧
    (∀ t ∈ unverified_tags memberTags ps, t ∉ memberTags) ∧
    (∀ t ∈ verified_missing_tags memberTags ps, t ∈ memberTags ∧
      ∃ p ∈ ps, p.tag = t ∧
        effectiveDecksUsedToday (decksColumnPresent ps) p = some 0) := by
  refine ⟨?_, ?_, ?_, ?_, ?_⟩
  · ext t
    simp only [verified_missing_tags, unverified_tags, Finset.mem_union,
      Finset.mem_inter, Finset.mem_sdiff]
    tauto
  · ext t
    simp only [verified_missing_tags, unverified_tags, Finset.mem_inter,
      Finset.mem_sdiff, Finset.not_mem_empty, iff_false]
    tauto
  · intro t ht
    exact (Finset.mem_inter.mp ht).2
  · intro t ht
    exact (Finset.mem_sdiff.mp ht).2
  · intro t ht
    obtain ⟨hz, hM⟩ := Finset.mem_inter.mp ht
    refine ⟨hM, ?_⟩
    simp only [missing_tags_today, List.mem_toFinset, List.mem_map] at hz
    obtain ⟨p, hp, rfl⟩ := hz
    obtain ⟨hmem, hcond⟩ := List.mem_filter.mp hp
    exact ⟨p, hmem, rfl, by simpa using hcond⟩

/-- Witness for C1 at a concrete member set and participant list: `#A` is a
member with zero decks, `#Z` has zero decks but left the clan, `#B` has
attacked. -/
theorem c1_pending_partition_witness :
    (verified_missing_tags {"#A"}
        [⟨"#A", "Ann", some 0⟩, ⟨"#Z", "Zed", some 0⟩, ⟨"#B", "Bob", some 2⟩] ∪
      unverified_tags {"#A"}
        [⟨"#A", "Ann", some 0⟩, ⟨"#Z", "Zed", some 0⟩, ⟨"#B", "Bob", some 2⟩] =
      missing_tags_today
        [⟨"#A", "Ann", some 0⟩, ⟨"#Z", "Zed", some 0⟩, ⟨"#B", "Bob", some 2⟩]) ∧
    ("#A" ∈ ({"#A"} : Finset String) ∧
      ∃ p ∈ [(⟨"#A", "Ann", some 0⟩ : Participant), ⟨"#Z", "Zed", some 0⟩,
          ⟨"#B", "Bob", some 2⟩], p.tag = "#A" ∧
        effectiveDecksUsedToday
          (decksColumnPresent [⟨"#A", "Ann", some 0⟩, ⟨"#Z", "Zed", some 0⟩,
            ⟨"#B", "Bob", some 2⟩]) p = some 0) :=
  ⟨(c1_pending_partition {"#A"}
      [⟨"#A", "Ann", some 0⟩, ⟨"#Z", "Zed", some 0⟩, ⟨"#B", "Bob", some 2⟩]).1,
   (c1_pending_partition {"#A"}
      [⟨"#A", "Ann", some 0⟩, ⟨"#Z", "Zed", some 0⟩,
        ⟨"#B", "Bob", some 2⟩]).2.2.2.2 "#A" (by decide)⟩

/-- C4 counterexample: in a snapshot where `#A` carries `decksUsedToday = 1`
and `#B` lacks the field, `#B` is not treated as having zero decks: it is
silently excluded from the zero-deck set, contrary to the claim. -/
theorem c4_mixed_missing_counterexample :
    "#B" ∉ missing_tags_today [⟨"#A", "Ann", some 1⟩, ⟨"#B", "Bob", none⟩] := by
  decide

/-- C4 amended: the default applies at column granularity. When no participant
in the snapshot carries the decks-used-today field, the column is created
filled with zero and every participant lands in the zero-deck set; when at
least one participant carries the field, a participant lacking it holds a
missing value and is excluded from the zero-deck set. -/
theorem c4_missing_decks_column_default (ps : List Participant) (p : Participant)
    (hp : p ∈ ps) :
    (decksColumnPresent ps = false → p ∈ missing_attack_today ps) ∧
    (decksColumnPresent ps = true → p.decksUsedToday = none →
      p ∉ missing_attack_today ps) := by
  constructor
  · intro hcol
    refine List.mem_filter.mpr ⟨hp, ?_⟩
    simp [effectiveDecksUsedToday, hcol]
  · intro hcol hnone hmem
    have hcond := (List.mem_filter.mp hmem).2
    simp [effectiveDecksUsedToday, hcol, hnone] at hcond

/-- Witness for C4: in a snapshot where nobody carries the field, `#C` defaults
into the zero-deck set; in the mixed snapshot, `#B` is excluded. -/
theorem c4_missing_decks_column_default_witness :
    ((⟨"#C", "Cy", none⟩ : Participant) ∈
      missing_attack_today [⟨"#C", "Cy", none⟩]) ∧
    ((⟨"#B", "Bob", none⟩ : Participant) ∉
      missing_attack_today [⟨"#A", "Ann", some 1⟩, ⟨"#B", "Bob", none⟩]) :=
  ⟨(c4_missing_decks_column_default [⟨"#C", "Cy", none⟩] ⟨"#C", "Cy", none⟩
      (by decide)).1 (by decide),
   (c4_missing_decks_column_default [⟨"#A", "Ann", some 1⟩, ⟨"#B", "Bob", none⟩]
      ⟨"#B", "Bob", none⟩ (by decide)).2 (by decide) (by decide)⟩

/-! ## API gateway (`get_clan_members`, lines 74-80; `get_current_river_race`,
lines 82-87) and the fetch-button handler (lines 182-224) -/

/-- Roster entry, projected to the fields the reconciliation uses. -/
structure Member where
  tag : String
  name : String
deriving DecidableEq

/-- Parsed JSON body of a successful `clans/{tag}/members` response: a dict
that may or may not carry an `items` list. -/
structure MembersResponse where
  items : Option (List Member)
deriving DecidableEq

/-- Outcome of `fetch_api_data` (lines 43-72): `failure` is the `None` returned
on any transport or authorization error (or a missing credential), `success`
carries the parsed JSON body. -/
inductive ApiResult (α : Type) where
  | failure
  | success (body : α)

/-- Clan block of the river-race payload, projected to the used fields. -/
structure ClanData where
  fame : Nat
  repairPoints : Nat
  participants : List Participant
deriving DecidableEq

/-- River-race payload: the `state` field and the clan block, either possibly
absent. A value of type `Option RiverRaceData` models the Python dict held in
`river_race_data`, with `none` standing for the falsy empty dict `{}`. -/
structure RiverRaceData where
  state : Option String
  clan : Option ClanData
deriving DecidableEq

/-- Embedding of `get_clan_members` (lines 74-80):
`return data.get("items", []) if data else []`. Both branches of the Python
conditional produce a list, so the function never returns `None`
(`Option.none`), even though its caller at line 201 tests for exactly that. -/
def get_clan_members (response : ApiResult MembersResponse) :
    Option (List Member) :=
  match response with
  | .failure => some []
  | .success data => some (data.items.getD [])

/-- Embedding of `get_current_river_race` (lines 82-87):
`return fetch_api_data(...) or {}`; a failure degrades to the empty dict. -/
def get_current_river_race (response : ApiResult RiverRaceData) :
    Option RiverRaceData :=
  match response with
  | .failure => none
  | .success data => some data

/-- The three `st.session_state` keys written by the fetch handler; `none`
models a key that is absent (popped). The `river_race_data` value is itself a
dict that may be empty. -/
structure SessionState where
  members_data : Option (List Member)
  river_race_data : Option (Option RiverRaceData)
  data_loaded_for_tag : Option String
deriving DecidableEq

/-- Embedding of the fetch-button handler body after validation (lines
196-224): fetch both payloads, then either clear the session keys (the
`members_data is None` branch, lines 201-207), store an empty roster with a
warning (lines 208-213), or store the fetched data (lines 214-224). -/
def refreshClanData (membersResp : ApiResult MembersResponse)
    (raceResp : ApiResult RiverRaceData) (clanTag : String) : SessionState :=
  let fetched := get_clan_members membersResp
  let race := get_current_river_race raceResp
  match fetched with
  | none =>
      { members_data := none, river_race_data := none,
        data_loaded_for_tag := none }
  | some l =>
      if l.isEmpty then
        { members_data := some l, river_race_data := some race,
          data_loaded_for_tag := some clanTag }
      else
        { members_data := some l, river_race_data := some race,
          data_loaded_for_tag := some clanTag }

/-- C2 (code bug): on a transport or authorization failure the member fetch
returns the empty list, not `None`, and that value is identical to the result
for a clan whose roster is confirmed empty: a caller cannot distinguish the
two outcomes. -/
theorem c2_member_fetch_failure_collapses_to_empty :
    get_clan_members .failure = some ([] : List Member) ∧
    get_clan_members (.success ⟨some []⟩) = some ([] : List Member) ∧
    get_clan_members .failure = get_clan_members (.success ⟨some []⟩) :=
  ⟨rfl, rfl, rfl⟩

/-- C3 (code bug): on every roster-fetch failure the handler reaches the
zero-members warning branch, not the clearing branch: it stores an empty
roster and marks the clan as loaded instead of clearing the session keys. The
clearing branch at lines 201-207 is unreachable. -/
theorem c3_fetch_failure_marks_loaded (raceResp : ApiResult RiverRaceData)
    (clanTag : String) :
    (refreshClanData .failure raceResp clanTag).data_loaded_for_tag =
      some clanTag ∧
    (refreshClanData .failure raceResp clanTag).members_data = some [] ∧
    refreshClanData .failure raceResp clanTag ≠
      { members_data := none, river_race_data := none,
        data_loaded_for_tag := none } := by
  refine ⟨rfl, rfl, ?_⟩
  intro h
  have := congrArg SessionState.members_data h
  simp [refreshClanData, get_clan_members] at this

/-! ## Contact store (`load_player_data`, lines 91-110; `save_player_data`,
lines 112-130). File I/O is assumed to succeed and to be identity on cell
contents; the logic embedded here is the schema normalization. -/

/-- Persisted contact record: the schema `{tag, name, phone}`. -/
structure ContactRecord where
  tag : String
  name : String
  phone : String
deriving DecidableEq

/-- Caller-supplied tabular structure (a pandas DataFrame): a list of column
names and one association list of cells per row. A column of the frame that is
absent from a row is a missing cell (NaN). -/
structure Table where
  cols : List String
  rows : List (List (String × String))
deriving DecidableEq

/-- Cell of a row under a column name (first occurrence). -/
def lookupCell (row : List (String × String)) (col : String) : Option String :=
  (row.find? (fun cell => cell.1 == col)).map Prod.snd

/-- Value contributed to the saved frame by one row and one schema column
(lines 121-127): the column is copied when it exists in the frame, otherwise
created empty; `fillna('')` then turns every missing cell into `''`. -/
def cellOrEmpty (t : Table) (row : List (String × String)) (col : String) :
    String :=
  if col ∈ t.cols then (lookupCell row col).getD "" else ""

/-- Embedding of `save_player_data` (lines 112-130): normalize the caller's
frame to exactly the columns `[tag, name, phone]` — unknown columns dropped,
missing columns filled with the empty string — and return the records written
to the clan's CSV. -/
def save_player_data (t : Table) : List ContactRecord :=
  t.rows.map (fun row =>
    ⟨cellOrEmpty t row "tag", cellOrEmpty t row "name", cellOrEmpty t row "phone"⟩)

/-- The persisted CSV artifact read back as a frame: header `tag,name,phone`
and one row per record. -/
def csvTableOf (records : List ContactRecord) : Table :=
  ⟨["tag", "name", "phone"],
   records.map (fun r => [("tag", r.tag), ("name", r.name), ("phone", r.phone)])⟩

/-- Embedding of `load_player_data` (lines 91-110): read the clan's CSV,
ensure the three schema columns exist, fill missing cells with `''`, and
project to `[tag, name, phone]`. -/
def load_player_data (t : Table) : List ContactRecord :=
  t.rows.map (fun row =>
    ⟨(lookupCell row "tag").getD "", (lookupCell row "name").getD "",
     (lookupCell row "phone").getD ""⟩)

lemma load_csv_row (r : ContactRecord) :
    (⟨(lookupCell [("tag", r.tag), ("name", r.name), ("phone", r.phone)] "tag").getD "",
      (lookupCell [("tag", r.tag), ("name", r.name), ("phone", r.phone)] "name").getD "",
      (lookupCell [("tag", r.tag), ("name", r.name), ("phone", r.phone)] "phone").getD ""⟩ :
      ContactRecord) = r := rfl

lemma load_csv_roundtrip (records : List ContactRecord) :
    load_player_data (csvTableOf records) = records := by
  induction records with
  | nil => rfl
  | cons r rest ih =>
    show r :: load_player_data (csvTableOf rest) = r :: rest
    rw [ih]

/-- C6: saving a contact table and reloading it round-trips. Saving normalizes
any input frame to exactly the `{tag, name, phone}` schema — unknown columns
are dropped, a missing schema column contributes the empty string to every
row — and loading the written CSV returns exactly the saved triples. -/
theorem c6_contact_store_roundtrip (t : Table) :
    load_player_data (csvTableOf (save_player_data t)) = save_player_data t ∧
    (∀ r ∈ save_player_data t,
      ("tag" ∉ t.cols → r.tag = "") ∧ ("name" ∉ t.cols → r.name = "") ∧
      ("phone" ∉ t.cols → r.phone = "")) ∧
    (save_player_data t).length = t.rows.length := by
  refine ⟨load_csv_roundtrip _, ?_, List.length_map _ _⟩
  intro r hr
  simp only [save_player_data, List.mem_map] at hr
  obtain ⟨row, _, rfl⟩ := hr
  refine ⟨?_, ?_, ?_⟩ <;> intro hcol <;> simp [cellOrEmpty, hcol]

/-- Witness for C6 at a frame with an unknown column `foo` and with the `tag`
and `name` schema columns missing. -/
theorem c6_contact_store_roundtrip_witness :
    (load_player_data (csvTableOf (save_player_data
        ⟨["foo", "phone"], [[("foo", "x"), ("phone", "123")]]⟩)) =
      save_player_data ⟨["foo", "phone"], [[("foo", "x"), ("phone", "123")]]⟩) ∧
    (("tag" ∉ (["foo", "phone"] : List String) →
        (⟨"", "", "123"⟩ : ContactRecord).tag = "") ∧
      ("name" ∉ (["foo", "phone"] : List String) →
        (⟨"", "", "123"⟩ : ContactRecord).name = "") ∧
      ("phone" ∉ (["foo", "phone"] : List String) →
        (⟨"", "", "123"⟩ : ContactRecord).phone = "")) :=
  ⟨(c6_contact_store_roundtrip
      ⟨["foo", "phone"], [[("foo", "x"), ("phone", "123")]]⟩).1,
   (c6_contact_store_roundtrip
      ⟨["foo", "phone"], [[("foo", "x"), ("phone", "123")]]⟩).2.1
     ⟨"", "", "123"⟩ (by decide)⟩

/-! ## Phone merges (lines 263-268 and 349-363) -/

/-- Stored phone for a tag: the left-join key lookup into the loaded contact
records. -/
def lookupPhone (store : List ContactRecord) (tag : String) : Option String :=
  (store.find? (fun r => r.tag == tag)).map ContactRecord.phone

/-- Embedding of the editable contact table (lines 263-268): left merge of the
current members with the stored phones; `.fillna({'phone': '', 'name': ''})`
defaults a missing phone to the empty string. -/
def combined_data (members : List Member) (store : List ContactRecord) :
    List ContactRecord :=
  members.map (fun m => ⟨m.tag, m.name, (lookupPhone store m.tag).getD ""⟩)

/-- Embedding of lines 349: the verified pending players projected to
`(tag, name)`. -/
def verified_missing_players_info (memberTags : Finset String)
    (ps : List Participant) : List (String × String) :=
  ((missing_attack_today ps).filter
      (fun p => decide (p.tag ∈ verified_missing_tags memberTags ps))).map
    (fun p => (p.tag, p.name))

/-- Embedding of the export merge (lines 355-360): left merge of the verified
pending players with the stored phones; `.fillna({'phone': 'N/A'})` defaults a
missing phone to the literal string `N/A`. -/
def missing_players_with_phones (info : List (String × String))
    (store : List ContactRecord) : List ContactRecord :=
  info.map (fun x => ⟨x.1, x.2, (lookupPhone store x.1).getD "N/A"⟩)

/-- C8: the two derived views use different missing-phone defaults. A current
member with no stored phone appears in the editable contact table with the
empty string as phone (the row is present, every member is kept), whereas a
pending-export row with no stored phone carries the literal string `N/A`. -/
theorem c8_missing_phone_defaults (members : List Member)
    (info : List (String × String)) (store : List ContactRecord) (m : Member)
    (x : String × String) (hm : m ∈ members) (hx : x ∈ info)
    (hmp : lookupPhone store m.tag = none)
    (hxp : lookupPhone store x.1 = none) :
    (⟨m.tag, m.name, ""⟩ : ContactRecord) ∈ combined_data members store ∧
    (⟨x.1, x.2, "N/A"⟩ : ContactRecord) ∈ missing_players_with_phones info store ∧
    (combined_data members store).length = members.length := by
  refine ⟨?_, ?_, List.length_map _ _⟩
  · exact List.mem_map.mpr ⟨m, hm, by simp [hmp]⟩
  · exact List.mem_map.mpr ⟨x, hx, by simp [hxp]⟩

/-- Witness for C8: with an empty contact store, member `#A` gets phone `""`
in the editable table and phone `N/A` in the export rows. -/
theorem c8_missing_phone_defaults_witness :
    ((⟨"#A", "Ann", ""⟩ : ContactRecord) ∈ combined_data [⟨"#A", "Ann"⟩] []) ∧
    ((⟨"#A", "Ann", "N/A"⟩ : ContactRecord) ∈
      missing_players_with_phones [("#A", "Ann")] []) ∧
    (combined_data [⟨"#A", "Ann"⟩] ([] : List ContactRecord)).length = 1 :=
  c8_missing_phone_defaults [⟨"#A", "Ann"⟩] [("#A", "Ann")] [] ⟨"#A", "Ann"⟩
    ("#A", "Ann") (by decide) (by decide) rfl rfl

/-! ## River-race section rendering (lines 297-395) -/

/-- Outcome of the river-race column: either the informational
not-participating message (line 395) or the war view with its pending-attack
data. -/
inductive RiverRaceView where
  | notInWarInfo
  | warView (stateLabel : String) (pendingTags : Finset String)
      (unverifiedTags : Finset String) (exportRows : List ContactRecord)
      (exportFilename : String)

/-- Embedding of the river-race column (lines 297-395). The guard at line 300,
`river_race_data and river_race_data.get("state") != "notInWar"`, selects the
war view; otherwise the informational message at line 395 is shown and no
pending computation runs. The war view carries the pending partition, the
export rows, and the export filename computed by lines 329-379. -/
def renderRiverRace (memberTags : Finset String) (store : List ContactRecord)
    (clanTag : String) (now : DateTime)
    (river_race_data : Option RiverRaceData) : RiverRaceView :=
  match river_race_data with
  | none => .notInWarInfo
  | some d =>
    if d.state == some "notInWar" then .notInWarInfo
    else
      let ps := (d.clan.map ClanData.participants).getD []
      .warView (d.state.getD "N/A") (verified_missing_tags memberTags ps)
        (unverified_tags memberTags ps)
        (missing_players_with_phones
          (verified_missing_players_info memberTags ps) store)
        (download_filename clanTag now)

/-- C9: when the event snapshot's state is the sentinel `notInWar`, the whole
pending-calculation path is skipped and the informational message is shown;
no war view (and hence no filtering, partition, or export data) is produced. -/
theorem c9_not_in_war_skips_pending (memberTags : Finset String)
    (store : List ContactRecord) (clanTag : String) (now : DateTime)
    (d : RiverRaceData) (h : d.state = some "notInWar") :
    renderRiverRace memberTags store clanTag now (some d) =
      RiverRaceView.notInWarInfo := by
  simp [renderRiverRace, h]

/-- Witness for C9: a snapshot in state `notInWar` that still carries a
zero-deck participant renders as the informational message. -/
theorem c9_not_in_war_skips_pending_witness :
    renderRiverRace ∅ [] "#QPYL8YCV" ⟨2024, 5, 1, 9, 3⟩
      (some ⟨some "notInWar", some ⟨0, 0, [⟨"#A", "Ann", some 0⟩]⟩⟩) =
      RiverRaceView.notInWarInfo :=
  c9_not_in_war_skips_pending ∅ [] "#QPYL8YCV" ⟨2024, 5, 1, 9, 3⟩
    ⟨some "notInWar", some ⟨0, 0, [⟨"#A", "Ann", some 0⟩]⟩⟩ rfl

end ClashRoyale
